import Mathlib

/-!
# Verification of the gort request-admission pipeline (src/service/service.go)

Shallow embedding of the HTTP service layer of the gort controller:
the authentication middleware (`tokenObservingMiddleware`), the audit /
logging middleware (`buildLoggingMiddleware`), the response-status capture
writer (`StatusCaptureWriter`), the error taxonomy mapper
(`respondAndLogError`), and the `authenticate`, `bootstrap` and `healthz`
handlers.

Modelling conventions:
* The external data access layer (DAL) is an oracle: a structure of
  functions giving, for each DAL operation, the result it returns on this
  request.  Handlers additionally produce the ordered trace of DAL calls
  they perform (`DalCall`), so claims about "which DAL operations run, in
  which order" are statements about the trace.
* A Go `http.ResponseWriter` is modelled by the ordered list of operations
  performed on it (`WriterOp`): `writeHeader status` for `WriteHeader`
  and `write body` for `Write`.  `http.Error(w, msg, code)` performs
  `writeHeader code` followed by `write (text (msg ++ "\n"))`, exactly as
  in Go's standard library.
* Response bodies produced by the external `encoding/json` encoder are
  kept symbolic (`Body.jsonUser`, `Body.jsonToken`, `Body.jsonHealthy`):
  no claim depends on the serialized bytes of a JSON body, only on which
  value was encoded.  The byte length of such a body is not modelled (it
  is the length of external encoder output); `Body.byteLen` is only
  meaningful for `Body.text`, which is what every length-relevant claim
  uses.
* Log lines and telemetry events are counted (`warnLogs`, `errorLogs`,
  `telemetryErrors`, counter fields of the middleware results).
-/

/-- `rest.User` from github.com/getgort/gort/data/rest, restricted to the
fields the service layer reads or writes. -/
structure RestUser where
  email : String := ""
  fullName : String := ""
  username : String := ""
  password : String := ""
  deriving DecidableEq, Repr

/-- `rest.Token`, restricted to the fields the service layer reads. -/
structure Token where
  token : String := ""
  user : String := ""
  deriving DecidableEq, Repr

/-- A response body. `text` is a raw string written directly (as by
`http.Error`); the `json*` constructors stand for the output of Go's
`json.NewEncoder(w).Encode(x)` for the given value `x`, kept symbolic
because the encoder is external to this repository. -/
inductive Body where
  | text (s : String)
  | jsonUser (u : RestUser)
  | jsonToken (t : Token)
  | jsonHealthy (healthy : Bool)
  deriving DecidableEq, Repr

/-- Byte length of a body as seen by `Write`. For raw text this is the
string length (all literals involved are ASCII); the length of external
JSON-encoder output is not modelled and plays no role in any claim. -/
def Body.byteLen : Body → Nat
  | .text s => s.length
  | .jsonUser _ => 0
  | .jsonToken _ => 0
  | .jsonHealthy _ => 0

/-- One operation performed on an `http.ResponseWriter`. -/
inductive WriterOp where
  | writeHeader (status : Nat)
  | write (data : Body)
  deriving DecidableEq, Repr

/-- The write sequence performed by Go's `http.Error(w, msg, code)`:
set the status, then write the message followed by a newline. -/
def httpError (msg : String) (code : Nat) : List WriterOp :=
  [.writeHeader code, .write (.text (msg ++ "\n"))]

/-- The HTTP status the caller actually observes for a sequence of writer
operations, per net/http semantics: the first `WriteHeader` fixes the
status; a `Write` before any `WriteHeader` fixes the implicit 200, and
later `WriteHeader` calls are ignored; an empty sequence yields 200. -/
def responseStatus : List WriterOp → Nat
  | [] => 200
  | .writeHeader s :: _ => s
  | .write _ :: _ => 200

/-- The sentinel error values of github.com/getgort/gort (packages
`dataaccess/errs` and `errors`) that `respondAndLogError` distinguishes,
plus `other` for any error matching none of them. -/
inductive GortErr where
  | errEmptyBundleName
  | errEmptyBundleVersion
  | errEmptyGroupName
  | errEmptyUserName
  | errMissingValue
  | errFieldRequired
  | errNoSuchBundle
  | errNoSuchGroup
  | errNoSuchToken
  | errNoSuchUser
  | errAdminUndeletable
  | errBundleExists
  | errGroupExists
  | errUserExists
  | errNotImplemented
  | errDataAccessNotInitialized
  | errDataAccessCantInitialize
  | errDataAccessCantConnect
  | errDataAccess
  | errUnmarshal
  | other (msg : String)
  deriving DecidableEq, Repr

/-- `err.Error()`: the message carried by an error value. The sentinel
texts live in packages outside src/ and no claim depends on them; only
`other` (which carries an arbitrary message) and the pass-through /
replacement behavior of the mapper matter. -/
def GortErr.message : GortErr → String
  | .other msg => msg
  | .errUnmarshal => "unmarshal failure"
  | _ => "sentinel error"

/-- Result of the error taxonomy mapper `respondAndLogError`: the writer
operations it performs, the status and message it chose, and the log /
telemetry side effects it emitted. -/
structure ErrResponse where
  writes : List WriterOp
  status : Nat
  msg : String
  errorLogs : Nat := 0
  warnLogs : Nat := 0
  telemetryErrors : Nat := 0
  deriving DecidableEq, Repr

/-- `respondAndLogError` (service.go lines 390-460): classifies a domain
error into an HTTP status and a public message, logs data-access errors
server-side, replaces the unmarshal error message with a generic string,
escalates unclassified errors to telemetry plus a warning log, and always
responds exactly once via `http.Error`. -/
def respondAndLogError (e : GortErr) : ErrResponse :=
  let msg := e.message
  match e with
  | .errEmptyBundleName
  | .errEmptyBundleVersion
  | .errEmptyGroupName
  | .errEmptyUserName
  | .errMissingValue
  | .errFieldRequired =>
      { writes := httpError msg 417, status := 417, msg := msg }
  | .errNoSuchBundle
  | .errNoSuchGroup
  | .errNoSuchToken
  | .errNoSuchUser =>
      { writes := httpError msg 404, status := 404, msg := msg }
  | .errAdminUndeletable =>
      { writes := httpError msg 403, status := 403, msg := msg }
  | .errBundleExists
  | .errGroupExists
  | .errUserExists =>
      { writes := httpError msg 409, status := 409, msg := msg }
  | .errNotImplemented =>
      { writes := httpError msg 501, status := 501, msg := msg }
  | .errDataAccessNotInitialized
  | .errDataAccessCantInitialize
  | .errDataAccessCantConnect
  | .errDataAccess =>
      { writes := httpError msg 500, status := 500, msg := msg,
        errorLogs := 1 }
  | .errUnmarshal =>
      let msg := "Corrupt JSON payload"
      { writes := httpError msg 406, status := 406, msg := msg }
  | .other _ =>
      { writes := httpError msg 500, status := 500, msg := msg,
        warnLogs := 1, errorLogs := 1, telemetryErrors := 1 }

/-- One DAL operation performed by a handler, with its arguments.
Handlers produce the ordered list of these as their call trace. -/
inductive DalCall where
  | userList
  | userExists (username : String)
  | userAuthenticate (username password : String)
  | tokenGenerate (username : String) (ttlMinutes : Nat)
  | tokenEvaluate (tok : String)
  | tokenRetrieveByToken (tok : String)
  | userCreate (u : RestUser)
  | userDelete (username : String)
  | groupCreate (name : String)
  | groupAddUser (group username : String)
  | roleCreate (name : String)
  | groupGrantRole (group role : String)
  | roleGrantPermission (role ns permission : String)
  deriving DecidableEq, Repr

/-- Oracle for the external data access layer: for each operation, the
result it returns on this request. Go's `(value, error)` pairs become
`Except GortErr value`; operations returning only an error become
`Option GortErr` (`none` = success). `TokenRetrieveByToken` keeps the Go
shape `(token, error)` because the caller in service.go discards the
error and reads the token value regardless. -/
structure DAL where
  userList : Except GortErr (List RestUser)
  userExists : String → Except GortErr Bool
  userAuthenticate : String → String → Except GortErr Bool
  tokenGenerate : String → Nat → Except GortErr Token
  tokenEvaluate : String → Bool
  tokenRetrieveByToken : String → Token × Option GortErr
  userCreate : RestUser → Option GortErr
  userDelete : String → Option GortErr
  groupCreate : String → Option GortErr
  groupAddUser : String → String → Option GortErr
  roleCreate : String → Option GortErr
  groupGrantRole : String → String → Option GortErr
  roleGrantPermission : String → String → String → Option GortErr

/-- An inbound HTTP request, restricted to the fields the pipeline reads.
`xSessionToken` is `r.Header.Get("X-Session-Token")`: the empty string
when the header is absent, exactly as in Go. -/
structure Request where
  method : String := "GET"
  requestURI : String := "/"
  proto : String := "HTTP/1.1"
  remoteAddr : String := "127.0.0.1:1234"
  xSessionToken : String := ""
  deriving DecidableEq, Repr

/-- Result of running `tokenObservingMiddleware` on one request: the
writer operations performed (by the middleware or the next handler), and
observations of its side effects. -/
structure MWResult where
  writes : List WriterOp
  nextInvoked : Bool
  tokenEvaluateCalled : Bool
  totalRequests : Nat
  unauthorizedRequests : Nat
  deriving DecidableEq, Repr

/-- Characters of a string up to (excluding) the first question mark. -/
def stripQueryChars : List Char → List Char
  | [] => []
  | c :: rest => if c == '?' then [] else c :: stripQueryChars rest

/-- `strings.Split(uri, "?")[0]`: the request URI up to (excluding) the
first question mark (the whole string when it has none), which is exactly
the first element `Split` returns. -/
def stripQuery (uri : String) : String :=
  ⟨stripQueryChars uri.data⟩

/-- The exempt-endpoint set built inside `tokenObservingMiddleware`. -/
def exemptEndpoints (path : String) : Bool :=
  path == "/v2/authenticate" || path == "/v2/bootstrap" ||
    path == "/v2/healthz" || path == "/v2/metrics"

/-- `tokenObservingMiddleware` (service.go lines 462-495): requests whose
query-stripped URI is exempt pass straight through; otherwise the total
request counter is bumped, and a missing (empty) or invalid session token
yields `http.Error "Unauthorized" 401` plus an unauthorized counter bump
without invoking `next`. The short-circuit `token == "" || !TokenEvaluate`
means the token store is not consulted when the header is absent. -/
def tokenObservingMiddleware (dal : DAL) (next : Request → List WriterOp)
    (r : Request) : MWResult :=
  let requestURI := stripQuery r.requestURI
  if exemptEndpoints requestURI then
    { writes := next r, nextInvoked := true, tokenEvaluateCalled := false,
      totalRequests := 0, unauthorizedRequests := 0 }
  else
    let token := r.xSessionToken
    if token == "" then
      { writes := httpError "Unauthorized" 401, nextInvoked := false,
        tokenEvaluateCalled := false, totalRequests := 1,
        unauthorizedRequests := 1 }
    else if !(dal.tokenEvaluate token) then
      { writes := httpError "Unauthorized" 401, nextInvoked := false,
        tokenEvaluateCalled := true, totalRequests := 1,
        unauthorizedRequests := 1 }
    else
      { writes := next r, nextInvoked := true, tokenEvaluateCalled := true,
        totalRequests := 1, unauthorizedRequests := 0 }

/-- The two capture cells a `StatusCaptureWriter` points at. -/
structure CaptureCells where
  status : Nat
  bytes : Nat
  deriving DecidableEq, Repr

/-- `StatusCaptureWriter` (service.go lines 69-91) applied to a sequence
of writer operations: `Write` stores the length of the written slice into
the bytes cell (an assignment, not an accumulation) and forwards; 
`WriteHeader` stores the status code and forwards. Returns the final cell
values and the forwarded operation sequence. -/
def statusCaptureRun (cells : CaptureCells) :
    List WriterOp → CaptureCells × List WriterOp
  | [] => (cells, [])
  | .write b :: rest =>
      let r := statusCaptureRun { cells with bytes := b.byteLen } rest
      (r.1, .write b :: r.2)
  | .writeHeader s :: rest =>
      let r := statusCaptureRun { cells with status := s } rest
      (r.1, .writeHeader s :: r.2)

/-- `RequestEvent` (service.go lines 44-51). The timestamp is an abstract
clock value supplied by the caller of the middleware model. -/
structure RequestEvent where
  addr : String
  userID : String
  timestamp : Nat
  request : String
  status : Nat
  size : Nat
  deriving DecidableEq, Repr

/-- Outcome of running a handler chain: it either returns normally having
performed the given writer operations, or panics after performing them. -/
inductive HandlerOutcome where
  | normal (writes : List WriterOp)
  | panics (writes : List WriterOp)
  deriving DecidableEq, Repr

/-- Result of the logging middleware on one request: the outcome it
propagates and the request events it sent on the channel. -/
structure LogMWResult where
  outcome : HandlerOutcome
  events : List RequestEvent
  deriving DecidableEq, Repr

/-- `buildLoggingMiddleware` (service.go lines 192-226): initializes the
status and byte cells to 200 and 0, serves `next` through a
`StatusCaptureWriter`, then resolves the caller identity from the
`X-Session-Token` header (sentinel "-" when the header is empty; otherwise
the `User` field of whatever token value `TokenRetrieveByToken` returns,
its error being discarded), assembles one `RequestEvent` and sends it.
The send is NOT in a deferred block: when `next` panics, control unwinds
past the send and no event is emitted. -/
def buildLoggingMiddleware (dal : DAL) (next : Request → HandlerOutcome)
    (now : Nat) (r : Request) : LogMWResult :=
  match next r with
  | .panics ws => { outcome := .panics ws, events := [] }
  | .normal ws =>
      let cells := (statusCaptureRun { status := 200, bytes := 0 } ws).1
      let userID :=
        if r.xSessionToken == "" then "-"
        else (dal.tokenRetrieveByToken r.xSessionToken).1.user
      let requestLine := r.method ++ " " ++ r.requestURI ++ " " ++ r.proto
      let e : RequestEvent :=
        { addr := r.remoteAddr, userID := userID, timestamp := now,
          request := requestLine, status := cells.status,
          size := cells.bytes }
      { outcome := .normal ws, events := [e] }

/-- Result of decoding a request body with `json.NewDecoder(r.Body).Decode`:
either a user value or a decode error. -/
inductive DecodeResult where
  | ok (u : RestUser)
  | malformed
  deriving DecidableEq, Repr

/-- Result of running one handler: the writer operations it performed,
the ordered DAL call trace, and its log / telemetry side effects. -/
structure HandlerResult where
  writes : List WriterOp := []
  calls : List DalCall := []
  errorLogs : Nat := 0
  warnLogs : Nat := 0
  telemetryErrors : Nat := 0
  deriving DecidableEq, Repr

/-- Lift an `ErrResponse` of the mapper into a `HandlerResult` with the
given preceding DAL call trace. -/
def respondResult (calls : List DalCall) (e : GortErr) : HandlerResult :=
  let r := respondAndLogError e
  { writes := r.writes, calls := calls, errorLogs := r.errorLogs,
    warnLogs := r.warnLogs, telemetryErrors := r.telemetryErrors }

/-- `handleAuthenticate` (service.go lines 229-276). Note the `UserExists`
error branch: it logs and commits a telemetry error and then returns
WITHOUT writing any response. `TokenGenerate` is called with a lifetime of
`10*time.Minute`, modelled as 10 (minutes). -/
def handleAuthenticate (dal : DAL) (body : DecodeResult) : HandlerResult :=
  match body with
  | .malformed => respondResult [] .errUnmarshal
  | .ok user =>
    let username := user.username
    let password := user.password
    match dal.userExists username with
    | .error _ =>
        { writes := [], calls := [.userExists username],
          errorLogs := 1, telemetryErrors := 1 }
    | .ok userEx =>
      if !userEx then
        { writes := httpError "No such user" 400,
          calls := [.userExists username],
          errorLogs := 1, telemetryErrors := 1 }
      else
        match dal.userAuthenticate username password with
        | .error e =>
            respondResult [.userExists username,
              .userAuthenticate username password] e
        | .ok authenticated =>
          if !authenticated then
            { writes := httpError "Forbidden" 403,
              calls := [.userExists username,
                .userAuthenticate username password] }
          else
            match dal.tokenGenerate username 10 with
            | .error e =>
                respondResult [.userExists username,
                  .userAuthenticate username password,
                  .tokenGenerate username 10] e
            | .ok token =>
                { writes := [.write (.jsonToken token)],
                  calls := [.userExists username,
                    .userAuthenticate username password,
                    .tokenGenerate username 10] }

/-- `bootstrapUserWithDefaults` (service.go lines 166-190): default the
email and full name when empty, force the username to the literal
"admin", and when the password is empty replace it with the result of
`data.GenerateRandomToken(32)`, supplied here as the oracle `gen` (the
generator lives outside src/); a generator error is returned to the
caller. -/
def bootstrapUserWithDefaults (gen : Except GortErr String)
    (user : RestUser) : Except GortErr RestUser :=
  let user := if user.email == "" then
    { user with email := "gort@localhost" } else user
  let user := if user.fullName == "" then
    { user with fullName := "Gort Administrator" } else user
  let user := { user with username := "admin" }
  if user.password == "" then
    match gen with
    | .error e => .error e
    | .ok password => .ok { user with password := password }
  else
    .ok user

/-- `handleBootstrap` (service.go lines 279-364): list users first; if any
exist, respond 409 "Service already bootstrapped" with a warning log and
stop (the body is never even decoded). Otherwise decode the body, apply
defaults, then run the mutation sequence — create user, create group
"admin", add the user to it, create role "admin", grant the role to the
group, grant the four fixed permissions in namespace "gort" — aborting at
the first failing step through `respondAndLogError`; on success encode
the created user. -/
def handleBootstrap (dal : DAL) (gen : Except GortErr String)
    (body : DecodeResult) : HandlerResult :=
  match dal.userList with
  | .error e => respondResult [.userList] e
  | .ok users =>
    if users.length != 0 then
      { writes := httpError "Service already bootstrapped" 409,
        calls := [.userList], warnLogs := 1 }
    else
      match body with
      | .malformed => respondResult [.userList] .errUnmarshal
      | .ok user =>
        match bootstrapUserWithDefaults gen user with
        | .error e => respondResult [.userList] e
        | .ok user =>
          match dal.userCreate user with
          | some e => respondResult [.userList, .userCreate user] e
          | none =>
            match dal.groupCreate "admin" with
            | some e =>
                respondResult [.userList, .userCreate user,
                  .groupCreate "admin"] e
            | none =>
              match dal.groupAddUser "admin" user.username with
              | some e =>
                  respondResult [.userList, .userCreate user,
                    .groupCreate "admin",
                    .groupAddUser "admin" user.username] e
              | none =>
                match dal.roleCreate "admin" with
                | some e =>
                    respondResult [.userList, .userCreate user,
                      .groupCreate "admin",
                      .groupAddUser "admin" user.username,
                      .roleCreate "admin"] e
                | none =>
                  match dal.groupGrantRole "admin" "admin" with
                  | some e =>
                      respondResult [.userList, .userCreate user,
                        .groupCreate "admin",
                        .groupAddUser "admin" user.username,
                        .roleCreate "admin",
                        .groupGrantRole "admin" "admin"] e
                  | none =>
                    let base : List DalCall := [.userList, .userCreate user,
                      .groupCreate "admin",
                      .groupAddUser "admin" user.username,
                      .roleCreate "admin",
                      .groupGrantRole "admin" "admin"]
                    match dal.roleGrantPermission "admin" "gort"
                        "manage_commands" with
                    | some e =>
                        respondResult (base ++ [.roleGrantPermission
                          "admin" "gort" "manage_commands"]) e
                    | none =>
                      match dal.roleGrantPermission "admin" "gort"
                          "manage_groups" with
                      | some e =>
                          respondResult (base ++ [.roleGrantPermission
                            "admin" "gort" "manage_commands",
                            .roleGrantPermission
                            "admin" "gort" "manage_groups"]) e
                      | none =>
                        match dal.roleGrantPermission "admin" "gort"
                            "manage_roles" with
                        | some e =>
                            respondResult (base ++ [.roleGrantPermission
                              "admin" "gort" "manage_commands",
                              .roleGrantPermission
                              "admin" "gort" "manage_groups",
                              .roleGrantPermission
                              "admin" "gort" "manage_roles"]) e
                        | none =>
                          match dal.roleGrantPermission "admin" "gort"
                              "manage_users" with
                          | some e =>
                              respondResult (base ++ [.roleGrantPermission
                                "admin" "gort" "manage_commands",
                                .roleGrantPermission
                                "admin" "gort" "manage_groups",
                                .roleGrantPermission
                                "admin" "gort" "manage_roles",
                                .roleGrantPermission
                                "admin" "gort" "manage_users"]) e
                          | none =>
                              { writes := [.write (.jsonUser user)],
                                calls := base ++ [.roleGrantPermission
                                  "admin" "gort" "manage_commands",
                                  .roleGrantPermission
                                  "admin" "gort" "manage_groups",
                                  .roleGrantPermission
                                  "admin" "gort" "manage_roles",
                                  .roleGrantPermission
                                  "admin" "gort" "manage_users"] }

/-- `handleHealthz` (service.go lines 367-388): build a synthetic test
user from two password-hash oracle values (the hashes are computed by
`data.HashPassword`, outside src/), attempt to create it; on failure log
a warning and respond 503 with a literal unhealthy JSON string; on
success defer its deletion (whose error is discarded), then encode the
healthy response. The deferred delete runs after the response is written,
so it appears after the create in the trace and its result is never
read. The synthetic user (`testUser` in the source, built from the two
hash values) is factored out as `healthzTestUser`. -/
def healthzTestUser (hashA hashB : String) : RestUser :=
  { email := "healthz@test.user", fullName := "Health Check User",
    username := "healthz" ++ (hashA.take 8), password := hashB }

/-- The body of `handleHealthz`; see the comment on `healthzTestUser`. -/
def handleHealthz (dal : DAL) (hashA hashB : String) : HandlerResult :=
  let testUser : RestUser := healthzTestUser hashA hashB
  match dal.userCreate testUser with
  | some _ =>
      { writes := httpError "\x7b\"healthy\":false\x7d" 503,
        calls := [.userCreate testUser], warnLogs := 1 }
  | none =>
      { writes := [.write (.jsonHealthy true)],
        calls := [.userCreate testUser, .userDelete testUser.username] }

/-! ## Shared concrete instances used to evaluate the theorems -/

/-- A concrete DAL on which every operation succeeds. -/
def dalAllOk : DAL where
  userList := .ok []
  userExists := fun _ => .ok true
  userAuthenticate := fun _ _ => .ok true
  tokenGenerate := fun u _ => .ok { token := "tok-abc", user := u }
  tokenEvaluate := fun _ => true
  tokenRetrieveByToken := fun s => ({ token := s, user := "alice" }, none)
  userCreate := fun _ => none
  userDelete := fun _ => none
  groupCreate := fun _ => none
  groupAddUser := fun _ _ => none
  roleCreate := fun _ => none
  groupGrantRole := fun _ _ => none
  roleGrantPermission := fun _ _ _ => none

/-- A concrete downstream handler used to observe pass-through. -/
def nextPlain : Request → List WriterOp :=
  fun _ => [.write (.text "downstream")]

/-! ## C1 — unauthorized non-exempt requests are rejected with 401 -/

/-- C1: for every request whose query-stripped path is not an exempt
endpoint, if the `X-Session-Token` header is absent (empty) or the token
fails validation against the token store, the authentication middleware
responds with the 401 `http.Error` write sequence — so the caller
observes status exactly 401 — and the downstream handler is never
invoked. -/
theorem claim1_unauthorized_401_shortcircuit (dal : DAL)
    (next : Request → List WriterOp) (r : Request)
    (hex : exemptEndpoints (stripQuery r.requestURI) = false)
    (htok : r.xSessionToken = "" ∨ dal.tokenEvaluate r.xSessionToken = false) :
    (tokenObservingMiddleware dal next r).writes =
      httpError "Unauthorized" 401 ∧
    responseStatus (tokenObservingMiddleware dal next r).writes = 401 ∧
    (tokenObservingMiddleware dal next r).nextInvoked = false := by
  unfold tokenObservingMiddleware
  rcases htok with h | h
  · simp [hex, h, httpError, responseStatus]
  · by_cases he : r.xSessionToken = ""
    · simp [hex, he, httpError, responseStatus]
    · simp [hex, he, h, httpError, responseStatus]

/-- C1 witness: a request for `/v2/users?all=1` with no session token is
rejected with 401 without reaching the downstream handler. -/
theorem claim1_witness :
    (tokenObservingMiddleware dalAllOk nextPlain
        { requestURI := "/v2/users?all=1" }).writes =
      httpError "Unauthorized" 401 ∧
    responseStatus (tokenObservingMiddleware dalAllOk nextPlain
        { requestURI := "/v2/users?all=1" }).writes = 401 ∧
    (tokenObservingMiddleware dalAllOk nextPlain
        { requestURI := "/v2/users?all=1" }).nextInvoked = false :=
  claim1_unauthorized_401_shortcircuit dalAllOk nextPlain
    { requestURI := "/v2/users?all=1" } (by decide) (Or.inl rfl)

/-! ## C2 — exempt requests pass through untouched -/

/-- C2: for every request whose query-stripped path is one of the four
exempt endpoints, the authentication middleware passes the request to the
next handler unchanged: the response is exactly what the next handler
writes, the token store is never consulted (`TokenEvaluate` is not
called), and no 401 (indeed nothing at all) is produced by the middleware
itself. -/
theorem claim2_exempt_passthrough (dal : DAL)
    (next : Request → List WriterOp) (r : Request)
    (hex : exemptEndpoints (stripQuery r.requestURI) = true) :
    tokenObservingMiddleware dal next r =
      { writes := next r, nextInvoked := true, tokenEvaluateCalled := false,
        totalRequests := 0, unauthorizedRequests := 0 } := by
  unfold tokenObservingMiddleware
  simp [hex]

/-- A bootstrap request with a query string and a bogus token header. -/
def reqBootstrapW : Request :=
  { requestURI := "/v2/bootstrap?force=1", xSessionToken := "bogus" }

/-- C2 witness: a bootstrap request with an invalid token in the header
still passes straight through (`dalAllOk` is irrelevant: the middleware
result records that `TokenEvaluate` was never called). -/
theorem claim2_witness :
    tokenObservingMiddleware dalAllOk nextPlain reqBootstrapW =
      { writes := nextPlain reqBootstrapW, nextInvoked := true,
        tokenEvaluateCalled := false, totalRequests := 0,
        unauthorizedRequests := 0 } :=
  claim2_exempt_passthrough dalAllOk nextPlain reqBootstrapW (by decide)

/-! ## C3 — the error taxonomy mapper is total and matches the table -/

/-- C3: the error mapper is a total function (it is a Lean `def`, so it
never throws) and every error produces exactly one `http.Error` response
carrying its chosen status and message; the statuses match the taxonomy
table: empty/missing-field errors map to 417, not-found errors to 404,
the forbidden admin-delete error to 403, already-exists errors to 409,
not-implemented to 501, the four data-access errors to 500 with a
server-side error log, the unmarshal error to 406 with the message
replaced by the generic "Corrupt JSON payload" string (all other messages
pass through unchanged), and any unclassified error to 500 while also
emitting exactly one error telemetry event and one warning log. -/
theorem claim3_error_mapper_total :
    (∀ e, (respondAndLogError e).writes =
        httpError (respondAndLogError e).msg (respondAndLogError e).status) ∧
    (∀ e, responseStatus (respondAndLogError e).writes =
        (respondAndLogError e).status) ∧
    (∀ e, (respondAndLogError e).msg =
        if e = .errUnmarshal then "Corrupt JSON payload" else e.message) ∧
    ((respondAndLogError .errEmptyBundleName).status = 417 ∧
     (respondAndLogError .errEmptyBundleVersion).status = 417 ∧
     (respondAndLogError .errEmptyGroupName).status = 417 ∧
     (respondAndLogError .errEmptyUserName).status = 417 ∧
     (respondAndLogError .errMissingValue).status = 417 ∧
     (respondAndLogError .errFieldRequired).status = 417) ∧
    ((respondAndLogError .errNoSuchBundle).status = 404 ∧
     (respondAndLogError .errNoSuchGroup).status = 404 ∧
     (respondAndLogError .errNoSuchToken).status = 404 ∧
     (respondAndLogError .errNoSuchUser).status = 404) ∧
    (respondAndLogError .errAdminUndeletable).status = 403 ∧
    ((respondAndLogError .errBundleExists).status = 409 ∧
     (respondAndLogError .errGroupExists).status = 409 ∧
     (respondAndLogError .errUserExists).status = 409) ∧
    (respondAndLogError .errNotImplemented).status = 501 ∧
    ((respondAndLogError .errDataAccessNotInitialized).status = 500 ∧
     (respondAndLogError .errDataAccessCantInitialize).status = 500 ∧
     (respondAndLogError .errDataAccessCantConnect).status = 500 ∧
     (respondAndLogError .errDataAccess).status = 500 ∧
     (respondAndLogError .errDataAccessNotInitialized).errorLogs = 1 ∧
     (respondAndLogError .errDataAccessCantInitialize).errorLogs = 1 ∧
     (respondAndLogError .errDataAccessCantConnect).errorLogs = 1 ∧
     (respondAndLogError .errDataAccess).errorLogs = 1) ∧
    ((respondAndLogError .errUnmarshal).status = 406 ∧
     (respondAndLogError .errUnmarshal).msg = "Corrupt JSON payload") ∧
    (∀ m, (respondAndLogError (.other m)).status = 500 ∧
      (respondAndLogError (.other m)).msg = m ∧
      (respondAndLogError (.other m)).telemetryErrors = 1 ∧
      (respondAndLogError (.other m)).warnLogs = 1) := by
  refine ⟨fun e => ?_, fun e => ?_, fun e => ?_, ?_, ?_, ?_, ?_, ?_, ?_, ?_, ?_⟩
  · cases e <;> rfl
  · cases e <;> rfl
  · cases e <;> simp [respondAndLogError, GortErr.message]
  · exact ⟨rfl, rfl, rfl, rfl, rfl, rfl⟩
  · exact ⟨rfl, rfl, rfl, rfl⟩
  · exact rfl
  · exact ⟨rfl, rfl, rfl⟩
  · exact rfl
  · exact ⟨rfl, rfl, rfl, rfl, rfl, rfl, rfl, rfl⟩
  · exact ⟨rfl, rfl⟩
  · exact fun m => ⟨rfl, rfl, rfl, rfl⟩

/-! ## C4 — bootstrap on a non-empty deployment: 409, warn, no mutation -/

/-- C4: whenever `UserList` reports at least one existing user, the
bootstrap handler responds with the 409 "Service already bootstrapped"
`http.Error`, emits one warning log, and performs no further DAL call at
all (its trace is exactly the initial `UserList` read — in particular no
create/add/grant mutation) — for every payload, including a malformed
one, since the body is only decoded after this check. -/
theorem claim4_rebootstrap_409_no_mutation (dal : DAL)
    (gen : Except GortErr String) (body : DecodeResult)
    (users : List RestUser) (hl : dal.userList = .ok users)
    (hne : users ≠ []) :
    handleBootstrap dal gen body =
      { writes := httpError "Service already bootstrapped" 409,
        calls := [.userList], warnLogs := 1 } ∧
    responseStatus (handleBootstrap dal gen body).writes = 409 := by
  have hlen : users.length ≠ 0 := by
    simpa [List.length_eq_zero] using hne
  unfold handleBootstrap
  rw [hl]
  simp [hlen, httpError, responseStatus]

/-- A DAL whose user list already contains one user. -/
def dalBootstrapped : DAL :=
  { dalAllOk with userList := .ok [{ username := "admin" }] }

/-- C4 witness: a second bootstrap attempt with a malformed payload on a
DAL that already has a user gets 409, one warning, and only the
`UserList` read in its trace. -/
theorem claim4_witness :
    handleBootstrap dalBootstrapped (.ok "pw") .malformed =
      { writes := httpError "Service already bootstrapped" 409,
        calls := [.userList], warnLogs := 1 } ∧
    responseStatus (handleBootstrap dalBootstrapped (.ok "pw")
      .malformed).writes = 409 :=
  claim4_rebootstrap_409_no_mutation dalBootstrapped (.ok "pw") .malformed
    [{ username := "admin" }] rfl (by simp)

/-! ## C5 — the bootstrap provisioning sequence -/

/-- Hex digit character for a value below 16. -/
def hexDigit (n : Nat) : Char :=
  if n < 10 then Char.ofNat (48 + n) else Char.ofNat (87 + n % 16)

/-- Two-character hex rendering of one byte. -/
def hexByte (b : Nat) : List Char :=
  [hexDigit ((b / 16) % 16), hexDigit (b % 16)]

/-- Modelled from the spec: `data.GenerateRandomToken(32)` — the
generator lives in package `data` of this repository, outside src/. The
spec says the password "is generated securely at random if omitted" and
is non-empty; gort hex-encodes `n` random bytes, modelled here as
hex-encoding `n` bytes drawn from an entropy oracle, so the output has
`2*n` characters and is non-empty for `n > 0`. -/
def generateRandomToken (entropy : Nat → Nat) (n : Nat) : String :=
  ⟨(List.range n).map (fun i => hexByte (entropy i % 256)) |>.flatten⟩

/-- `bootstrapUserWithDefaults` with a successful generator, in closed
form: email and full name defaulted when empty, username forced to
"admin", password replaced by the generated one exactly when empty. -/
theorem bootstrapUserWithDefaults_ok (pw : String) (u : RestUser) :
    bootstrapUserWithDefaults (.ok pw) u = .ok
      { email := if u.email = "" then "gort@localhost" else u.email,
        fullName := if u.fullName = "" then "Gort Administrator"
          else u.fullName,
        username := "admin",
        password := if u.password = "" then pw else u.password } := by
  obtain ⟨e, f, n, p⟩ := u
  simp only [bootstrapUserWithDefaults]
  by_cases he : e = "" <;> by_cases hf : f = "" <;> by_cases hp : p = "" <;>
    simp [he, hf, hp]

/-- The ordered DAL trace of a fully successful bootstrap: list users,
create the user, create group "admin", add the user to it, create role
"admin", grant the role to the group, then grant the four fixed
permissions in namespace "gort", in this order. -/
def bootstrapSuccessTrace (u : RestUser) : List DalCall :=
  [.userList, .userCreate u, .groupCreate "admin",
   .groupAddUser "admin" u.username, .roleCreate "admin",
   .groupGrantRole "admin" "admin",
   .roleGrantPermission "admin" "gort" "manage_commands",
   .roleGrantPermission "admin" "gort" "manage_groups",
   .roleGrantPermission "admin" "gort" "manage_roles",
   .roleGrantPermission "admin" "gort" "manage_users"]

/-- C5: on a fresh deployment (`UserList` returns the empty list) with a
well-formed payload `u` whose defaulted form is `uD`: (a) the defaults
are exactly as claimed — email "gort\x40localhost" and full name "Gort
Administrator" when omitted, username forced to the literal "admin"
whatever the caller sent, the password replaced by the generated one
(non-empty whenever the generator output is) exactly when omitted; (b) if
every DAL step succeeds, the handler performs precisely the trace
`bootstrapSuccessTrace uD` in order and responds 200 with the created
user as body; (c) a failure at any of the nine mutation steps aborts
immediately — the trace stops at the failing call, so no rollback of the
earlier steps and no later call happens — and surfaces that step's error
through the classifying mapper. -/
theorem claim5_bootstrap_sequence (dal : DAL) (u uD : RestUser)
    (pw : String) (hempty : dal.userList = .ok [])
    (hdef : bootstrapUserWithDefaults (.ok pw) u = .ok uD) :
    (uD.username = "admin" ∧
     uD.email = (if u.email = "" then "gort@localhost" else u.email) ∧
     uD.fullName = (if u.fullName = "" then "Gort Administrator"
       else u.fullName) ∧
     uD.password = (if u.password = "" then pw else u.password) ∧
     (pw ≠ "" → uD.password ≠ "")) ∧
    (dal.userCreate uD = none →
     dal.groupCreate "admin" = none →
     dal.groupAddUser "admin" "admin" = none →
     dal.roleCreate "admin" = none →
     dal.groupGrantRole "admin" "admin" = none →
     (∀ p, dal.roleGrantPermission "admin" "gort" p = none) →
     handleBootstrap dal (.ok pw) (.ok u) =
       { writes := [.write (.jsonUser uD)],
         calls := bootstrapSuccessTrace uD } ∧
     responseStatus (handleBootstrap dal (.ok pw) (.ok u)).writes = 200) ∧
    (∀ e, dal.userCreate uD = some e →
      handleBootstrap dal (.ok pw) (.ok u) =
        respondResult [.userList, .userCreate uD] e) ∧
    (∀ e, dal.userCreate uD = none →
      dal.groupCreate "admin" = some e →
      handleBootstrap dal (.ok pw) (.ok u) =
        respondResult [.userList, .userCreate uD, .groupCreate "admin"] e) ∧
    (∀ e, dal.userCreate uD = none →
      dal.groupCreate "admin" = none →
      dal.groupAddUser "admin" "admin" = some e →
      handleBootstrap dal (.ok pw) (.ok u) =
        respondResult [.userList, .userCreate uD, .groupCreate "admin",
          .groupAddUser "admin" uD.username] e) ∧
    (∀ e, dal.userCreate uD = none →
      dal.groupCreate "admin" = none →
      dal.groupAddUser "admin" "admin" = none →
      dal.roleCreate "admin" = some e →
      handleBootstrap dal (.ok pw) (.ok u) =
        respondResult [.userList, .userCreate uD, .groupCreate "admin",
          .groupAddUser "admin" uD.username, .roleCreate "admin"] e) ∧
    (∀ e, dal.userCreate uD = none →
      dal.groupCreate "admin" = none →
      dal.groupAddUser "admin" "admin" = none →
      dal.roleCreate "admin" = none →
      dal.groupGrantRole "admin" "admin" = some e →
      handleBootstrap dal (.ok pw) (.ok u) =
        respondResult [.userList, .userCreate uD, .groupCreate "admin",
          .groupAddUser "admin" uD.username, .roleCreate "admin",
          .groupGrantRole "admin" "admin"] e) ∧
    (∀ e, dal.userCreate uD = none →
      dal.groupCreate "admin" = none →
      dal.groupAddUser "admin" "admin" = none →
      dal.roleCreate "admin" = none →
      dal.groupGrantRole "admin" "admin" = none →
      dal.roleGrantPermission "admin" "gort" "manage_commands" = some e →
      handleBootstrap dal (.ok pw) (.ok u) =
        respondResult ((bootstrapSuccessTrace uD).take 7) e) ∧
    (∀ e, dal.userCreate uD = none →
      dal.groupCreate "admin" = none →
      dal.groupAddUser "admin" "admin" = none →
      dal.roleCreate "admin" = none →
      dal.groupGrantRole "admin" "admin" = none →
      dal.roleGrantPermission "admin" "gort" "manage_commands" = none →
      dal.roleGrantPermission "admin" "gort" "manage_groups" = some e →
      handleBootstrap dal (.ok pw) (.ok u) =
        respondResult ((bootstrapSuccessTrace uD).take 8) e) ∧
    (∀ e, dal.userCreate uD = none →
      dal.groupCreate "admin" = none →
      dal.groupAddUser "admin" "admin" = none →
      dal.roleCreate "admin" = none →
      dal.groupGrantRole "admin" "admin" = none →
      dal.roleGrantPermission "admin" "gort" "manage_commands" = none →
      dal.roleGrantPermission "admin" "gort" "manage_groups" = none →
      dal.roleGrantPermission "admin" "gort" "manage_roles" = some e →
      handleBootstrap dal (.ok pw) (.ok u) =
        respondResult ((bootstrapSuccessTrace uD).take 9) e) ∧
    (∀ e, dal.userCreate uD = none →
      dal.groupCreate "admin" = none →
      dal.groupAddUser "admin" "admin" = none →
      dal.roleCreate "admin" = none →
      dal.groupGrantRole "admin" "admin" = none →
      dal.roleGrantPermission "admin" "gort" "manage_commands" = none →
      dal.roleGrantPermission "admin" "gort" "manage_groups" = none →
      dal.roleGrantPermission "admin" "gort" "manage_roles" = none →
      dal.roleGrantPermission "admin" "gort" "manage_users" = some e →
      handleBootstrap dal (.ok pw) (.ok u) =
        respondResult (bootstrapSuccessTrace uD) e) := by
  have hform := bootstrapUserWithDefaults_ok pw u
  rw [hform] at hdef
  have huD := Except.ok.inj hdef
  subst huD
  refine ⟨?_, ?_, ?_, ?_, ?_, ?_, ?_, ?_, ?_, ?_, ?_⟩
  · refine ⟨rfl, rfl, rfl, rfl, fun hpw => ?_⟩
    simp only
    split
    · exact hpw
    · next h => exact h
  · intro h1 h2 h3 h4 h5 h6
    unfold handleBootstrap
    rw [hempty]
    simp [hform, h1, h2, h3, h4, h5, h6, bootstrapSuccessTrace,
      responseStatus]
  · intro e h1
    unfold handleBootstrap
    rw [hempty]
    simp [hform, h1]
  · intro e h1 h2
    unfold handleBootstrap
    rw [hempty]
    simp [hform, h1, h2]
  · intro e h1 h2 h3
    unfold handleBootstrap
    rw [hempty]
    simp [hform, h1, h2, h3]
  · intro e h1 h2 h3 h4
    unfold handleBootstrap
    rw [hempty]
    simp [hform, h1, h2, h3, h4]
  · intro e h1 h2 h3 h4 h5
    unfold handleBootstrap
    rw [hempty]
    simp [hform, h1, h2, h3, h4, h5]
  · intro e h1 h2 h3 h4 h5 h6
    unfold handleBootstrap
    rw [hempty]
    simp [hform, h1, h2, h3, h4, h5, h6, bootstrapSuccessTrace]
  · intro e h1 h2 h3 h4 h5 h6 h7
    unfold handleBootstrap
    rw [hempty]
    simp [hform, h1, h2, h3, h4, h5, h6, h7, bootstrapSuccessTrace]
  · intro e h1 h2 h3 h4 h5 h6 h7 h8
    unfold handleBootstrap
    rw [hempty]
    simp [hform, h1, h2, h3, h4, h5, h6, h7, h8, bootstrapSuccessTrace]
  · intro e h1 h2 h3 h4 h5 h6 h7 h8 h9
    unfold handleBootstrap
    rw [hempty]
    simp [hform, h1, h2, h3, h4, h5, h6, h7, h8, h9, bootstrapSuccessTrace]

/-- A fixed entropy oracle for evaluating the password generator. -/
def entropyW : Nat → Nat := fun i => 7 * i + 3

/-- A concrete generated bootstrap password. -/
def pwW : String := generateRandomToken entropyW 32

/-- The user an empty bootstrap payload produces with password `pwW`. -/
def bootUserW : RestUser :=
  { email := "gort@localhost", fullName := "Gort Administrator",
    username := "admin", password := pwW }

/-- A DAL on which creating the admin group fails. -/
def dalFailGroup : DAL :=
  { dalAllOk with groupCreate := fun _ => some .errGroupExists }

/-- C5 witness: an empty `\x7b\x7d` payload on a fresh all-succeeding DAL
yields the defaulted admin user with a non-empty generated password, the
full ordered trace and a 200 response with the user as body; on a DAL
whose `GroupCreate` fails the handler stops right after that call and
maps the error. -/
theorem claim5_witness :
    (bootUserW.username = "admin" ∧ bootUserW.email = "gort@localhost" ∧
     bootUserW.fullName = "Gort Administrator" ∧ bootUserW.password ≠ "") ∧
    (handleBootstrap dalAllOk (.ok pwW) (.ok {}) =
      { writes := [.write (.jsonUser bootUserW)],
        calls := bootstrapSuccessTrace bootUserW } ∧
     responseStatus (handleBootstrap dalAllOk (.ok pwW)
       (.ok {})).writes = 200) ∧
    handleBootstrap dalFailGroup (.ok pwW) (.ok {}) =
      respondResult [.userList, .userCreate bootUserW,
        .groupCreate "admin"] .errGroupExists :=
  have h := claim5_bootstrap_sequence dalAllOk {} bootUserW pwW rfl rfl
  have h2 := claim5_bootstrap_sequence dalFailGroup {} bootUserW pwW rfl rfl
  ⟨⟨h.1.1, by simpa using h.1.2.1, by simpa using h.1.2.2.1,
     h.1.2.2.2.2 (by decide)⟩,
   h.2.1 rfl rfl rfl rfl rfl (fun p => rfl),
   h2.2.2.2.1 .errGroupExists rfl rfl⟩

/-! ## C6 — the authenticate handler -/

/-- A DAL whose user-existence check fails with a storage error. -/
def dalUserExistsDown : DAL :=
  { dalAllOk with userExists := fun _ => .error .errDataAccess }

/-- The credentials used to evaluate the authenticate handler. -/
def authUserCE : RestUser := { username := "alice", password := "secret" }

/-- C6 counterexample: when the `UserExists` DAL call fails, the handler
logs and returns WITHOUT writing any response (service.go lines 244-249
have no `respondAndLogError` call), so it does not write exactly one
response and the caller sees the implicit 200 default with an empty body
— not 400, 403, a token payload, or the mapped status of the failed DAL
call. This refutes the claim as stated. -/
theorem claim6_counterexample :
    (handleAuthenticate dalUserExistsDown (.ok authUserCE)).writes = [] ∧
    (handleAuthenticate dalUserExistsDown (.ok authUserCE)).calls =
      [.userExists "alice"] ∧
    responseStatus ((handleAuthenticate dalUserExistsDown
      (.ok authUserCE)).writes) = 200 :=
  ⟨rfl, rfl, rfl⟩

/-- C6 amended: the authenticate handler writes at most one response —
exactly one except when `UserExists` fails, in which case it writes none
(only an error log and a telemetry event are emitted and the implicit 200
default applies). The written response is: 406 for a malformed payload;
400 "No such user" when the user does not exist; the mapped status of a
failed `UserAuthenticate` or `TokenGenerate` call; 403 "Forbidden" on
wrong credentials; or 200 with the generated session token as the only
payload, generated with a lifetime of exactly 10 minutes. -/
theorem claim6_amended_authenticate (dal : DAL) (u : RestUser) :
    (handleAuthenticate dal .malformed = respondResult [] .errUnmarshal ∧
     responseStatus (handleAuthenticate dal .malformed).writes = 406) ∧
    (∀ e, dal.userExists u.username = .error e →
      handleAuthenticate dal (.ok u) =
        { writes := [], calls := [.userExists u.username],
          errorLogs := 1, telemetryErrors := 1 }) ∧
    (dal.userExists u.username = .ok false →
      handleAuthenticate dal (.ok u) =
        { writes := httpError "No such user" 400,
          calls := [.userExists u.username], errorLogs := 1,
          telemetryErrors := 1 } ∧
      responseStatus (handleAuthenticate dal (.ok u)).writes = 400) ∧
    (∀ e, dal.userExists u.username = .ok true →
      dal.userAuthenticate u.username u.password = .error e →
      handleAuthenticate dal (.ok u) =
        respondResult [.userExists u.username,
          .userAuthenticate u.username u.password] e) ∧
    (dal.userExists u.username = .ok true →
      dal.userAuthenticate u.username u.password = .ok false →
      handleAuthenticate dal (.ok u) =
        { writes := httpError "Forbidden" 403,
          calls := [.userExists u.username,
            .userAuthenticate u.username u.password] } ∧
      responseStatus (handleAuthenticate dal (.ok u)).writes = 403) ∧
    (∀ e, dal.userExists u.username = .ok true →
      dal.userAuthenticate u.username u.password = .ok true →
      dal.tokenGenerate u.username 10 = .error e →
      handleAuthenticate dal (.ok u) =
        respondResult [.userExists u.username,
          .userAuthenticate u.username u.password,
          .tokenGenerate u.username 10] e) ∧
    (∀ t, dal.userExists u.username = .ok true →
      dal.userAuthenticate u.username u.password = .ok true →
      dal.tokenGenerate u.username 10 = .ok t →
      handleAuthenticate dal (.ok u) =
        { writes := [.write (.jsonToken t)],
          calls := [.userExists u.username,
            .userAuthenticate u.username u.password,
            .tokenGenerate u.username 10] } ∧
      responseStatus (handleAuthenticate dal (.ok u)).writes = 200) := by
  refine ⟨⟨?_, ?_⟩, fun e h1 => ?_, fun h1 => ?_, fun e h1 h2 => ?_,
    fun h1 h2 => ?_, fun e h1 h2 h3 => ?_, fun t h1 h2 h3 => ?_⟩ <;>
    unfold handleAuthenticate <;>
    simp [*, httpError, responseStatus, respondResult, respondAndLogError]

/-- The token `dalAllOk` generates for user "alice". -/
def tokenW : Token := { token := "tok-abc", user := "alice" }

/-- A DAL reporting that no user exists. -/
def dalNoSuchUser : DAL :=
  { dalAllOk with userExists := fun _ => .ok false }

/-- C6 witness: correct credentials on a healthy DAL yield exactly the
200 token response, the token being generated with a 10-minute lifetime;
an unknown user yields exactly the 400 "No such user" response. -/
theorem claim6_witness :
    (handleAuthenticate dalAllOk (.ok authUserCE) =
      { writes := [.write (.jsonToken tokenW)],
        calls := [.userExists "alice",
          .userAuthenticate "alice" "secret",
          .tokenGenerate "alice" 10] } ∧
     responseStatus (handleAuthenticate dalAllOk
       (.ok authUserCE)).writes = 200) ∧
    (handleAuthenticate dalNoSuchUser (.ok authUserCE) =
      { writes := httpError "No such user" 400,
        calls := [.userExists "alice"], errorLogs := 1,
        telemetryErrors := 1 } ∧
     responseStatus (handleAuthenticate dalNoSuchUser
       (.ok authUserCE)).writes = 400) :=
  ⟨(claim6_amended_authenticate dalAllOk authUserCE).2.2.2.2.2.2
     tokenW rfl rfl rfl,
   (claim6_amended_authenticate dalNoSuchUser authUserCE).2.2.1 rfl⟩

/-! ## StatusCaptureWriter characterization (shared by the audit claims) -/

/-- True when a writer-operation sequence contains no `WriteHeader`. -/
def onlyWrites : List WriterOp → Bool
  | [] => true
  | .write _ :: rest => onlyWrites rest
  | .writeHeader _ :: _ => false

/-- A handler's write sequence is well formed when it sets the header at
most once, before any body write — as every handler in this service does
(each path is a single `http.Error` or a single body encode). For such
sequences the status a `StatusCaptureWriter` captures is the status the
caller observes. -/
def wellFormedWrites : List WriterOp → Bool
  | [] => true
  | .writeHeader _ :: rest => onlyWrites rest
  | .write _ :: rest => onlyWrites rest

/-- The status value left in the capture cell: the argument of the last
`WriteHeader`, or the initial cell value if there is none. -/
def lastCapturedStatus (init : Nat) : List WriterOp → Nat
  | [] => init
  | .writeHeader s :: rest => lastCapturedStatus s rest
  | .write _ :: rest => lastCapturedStatus init rest

/-- The byte count left in the capture cell: the length of the last
`Write`, or the initial cell value if there is none. -/
def lastCapturedBytes (init : Nat) : List WriterOp → Nat
  | [] => init
  | .writeHeader _ :: rest => lastCapturedBytes init rest
  | .write b :: rest => lastCapturedBytes b.byteLen rest

/-- Total byte count over all `Write` operations of a sequence. -/
def totalBytes : List WriterOp → Nat
  | [] => 0
  | .writeHeader _ :: rest => totalBytes rest
  | .write b :: rest => b.byteLen + totalBytes rest

/-- Closed form of a `StatusCaptureWriter` run: the cells end up holding
the last written header and the last write's length, and every operation
is forwarded unchanged. -/
theorem statusCaptureRun_eq (cells : CaptureCells) (ops : List WriterOp) :
    statusCaptureRun cells ops =
      ({ status := lastCapturedStatus cells.status ops,
         bytes := lastCapturedBytes cells.bytes ops }, ops) := by
  induction ops generalizing cells with
  | nil => rfl
  | cons op rest ih =>
      cases op <;>
        simp [statusCaptureRun, lastCapturedStatus, lastCapturedBytes, ih]

/-- Without any `WriteHeader` the captured status keeps its initial
value. -/
theorem lastCapturedStatus_onlyWrites (init : Nat) (ops : List WriterOp)
    (h : onlyWrites ops = true) : lastCapturedStatus init ops = init := by
  induction ops with
  | nil => rfl
  | cons op rest ih =>
      cases op with
      | writeHeader s => simp [onlyWrites] at h
      | write b =>
          simp [onlyWrites] at h
          simp [lastCapturedStatus, ih h]

/-- For a well-formed write sequence the captured status (initial cell
200) coincides with the status the caller observes. -/
theorem lastCapturedStatus_wellFormed (ops : List WriterOp)
    (h : wellFormedWrites ops = true) :
    lastCapturedStatus 200 ops = responseStatus ops := by
  cases ops with
  | nil => rfl
  | cons op rest =>
      cases op with
      | writeHeader s =>
          simp [wellFormedWrites] at h
          simp [lastCapturedStatus, responseStatus,
            lastCapturedStatus_onlyWrites s rest h]
      | write b =>
          simp [wellFormedWrites] at h
          simp [lastCapturedStatus, responseStatus,
            lastCapturedStatus_onlyWrites 200 rest h]

/-! ## C7 — audit event emission -/

/-- A handler chain that panics before writing anything. -/
def panicNext : Request → HandlerOutcome := fun _ => .panics []

/-- C7 counterexample: the event send in `buildLoggingMiddleware` is not
in a deferred block (service.go line 223 runs after `next.ServeHTTP`
returns), so when the handler chain panics NO `RequestEvent` is emitted —
refuting "exactly one event is emitted per request, even if the handler
chain panics". -/
theorem claim7_counterexample :
    (buildLoggingMiddleware dalAllOk panicNext 0 {}).events = [] ∧
    (buildLoggingMiddleware dalAllOk panicNext 0 {}).events.length ≠ 1 :=
  ⟨rfl, by decide⟩

/-- C7 amended: for every request whose handler chain RETURNS NORMALLY
the audit middleware emits exactly one `RequestEvent`, and — whenever the
handler writes a well-formed response (at most one header write, first;
true of every handler in this service) — the event's `Status` equals the
HTTP status actually returned to the caller, including the implicit 200
when the handler never sets a status. When the handler chain panics, no
event is emitted. -/
theorem claim7_amended_one_event (dal : DAL)
    (next : Request → HandlerOutcome) (now : Nat) (r : Request) :
    (∀ ws, next r = .normal ws →
      (buildLoggingMiddleware dal next now r).events.length = 1 ∧
      (wellFormedWrites ws = true →
        (buildLoggingMiddleware dal next now r).events.map
          RequestEvent.status = [responseStatus ws])) ∧
    (∀ ws, next r = .panics ws →
      (buildLoggingMiddleware dal next now r).events = []) := by
  constructor
  · intro ws h
    unfold buildLoggingMiddleware
    rw [h]
    refine ⟨rfl, fun hwf => ?_⟩
    simp [statusCaptureRun_eq, lastCapturedStatus_wellFormed ws hwf]
  · intro ws h
    unfold buildLoggingMiddleware
    rw [h]

/-- A handler chain that returns a single 404 error response. -/
def next404 : Request → HandlerOutcome :=
  fun _ => .normal (httpError "nope" 404)

/-- C7 witness: a normally-returning handler responding 404 produces
exactly one event whose `Status` is 404. -/
theorem claim7_witness :
    (buildLoggingMiddleware dalAllOk next404 0 {}).events.length = 1 ∧
    (buildLoggingMiddleware dalAllOk next404 0 {}).events.map
      RequestEvent.status = [responseStatus (httpError "nope" 404)] :=
  have h := (claim7_amended_one_event dalAllOk next404 0 {}).1
    (httpError "nope" 404) rfl
  ⟨h.1, h.2 rfl⟩

/-! ## C8 — audit identity resolution -/

/-- A DAL whose token lookup fails, returning the zero token value along
with the error, as a Go DAL does for an unknown token. -/
def dalInvalidToken : DAL :=
  { dalAllOk with
    tokenRetrieveByToken := fun _ => ({ token := "", user := "" },
      some .errNoSuchToken) }

/-- The request carrying an invalid session token. -/
def reqBadToken : Request := { xSessionToken := "bad-token" }

/-- C8 counterexample: when an `X-Session-Token` header is PRESENT but
INVALID (the store's lookup errors and returns the zero token value), the
middleware records the zero value's empty `User` field — the error is
discarded at service.go line 205 and `token.User` used regardless — so
the recorded `UserID` is "" and not the claimed sentinel "-". -/
theorem claim8_counterexample :
    (buildLoggingMiddleware dalInvalidToken next404 0
      reqBadToken).events.map RequestEvent.userID = [""] ∧
    "" ≠ "-" :=
  ⟨rfl, by decide⟩

/-- C8 amended: the audit middleware resolves the event's `UserID` from
the `X-Session-Token` header: the sentinel "-" exactly when the header is
absent (empty); otherwise the `User` field of whatever token value the
store's lookup returns — even when the lookup fails, its error being
discarded, which for an invalid token is the zero value's empty string
rather than "-". The lookup never fails the request: the propagated
outcome is exactly the handler's. -/
theorem claim8_amended_audit_identity (dal : DAL)
    (next : Request → HandlerOutcome) (now : Nat) (r : Request)
    (ws : List WriterOp) (h : next r = .normal ws) :
    (r.xSessionToken = "" →
      (buildLoggingMiddleware dal next now r).events.map
        RequestEvent.userID = ["-"]) ∧
    (r.xSessionToken ≠ "" →
      (buildLoggingMiddleware dal next now r).events.map
        RequestEvent.userID =
        [(dal.tokenRetrieveByToken r.xSessionToken).1.user]) ∧
    (buildLoggingMiddleware dal next now r).outcome = .normal ws := by
  unfold buildLoggingMiddleware
  rw [h]
  refine ⟨fun he => ?_, fun he => ?_, rfl⟩
  · simp [he]
  · simp [he]

/-- C8 witness: with no header the recorded identity is "-"; with a valid
token it is the username the store resolves; the outcome is the
handler's own in both cases. -/
theorem claim8_witness :
    ((buildLoggingMiddleware dalAllOk next404 0 {}).events.map
      RequestEvent.userID = ["-"] ∧
     (buildLoggingMiddleware dalAllOk next404 0 {}).outcome =
       .normal (httpError "nope" 404)) ∧
    (buildLoggingMiddleware dalAllOk next404 0 reqBadToken).events.map
      RequestEvent.userID = ["alice"] :=
  have h1 := claim8_amended_audit_identity dalAllOk next404 0 {}
    (httpError "nope" 404) rfl
  have h2 := claim8_amended_audit_identity dalAllOk next404 0 reqBadToken
    (httpError "nope" 404) rfl
  ⟨⟨h1.1 rfl, h1.2.2⟩, h2.2.1 (by decide)⟩

/-! ## C9 — the StatusCaptureWriter -/

/-- C9 counterexample: `Write` ASSIGNS the slice length into the bytes
cell (`*w.bytes = len(bytes)` at service.go line 83) instead of
accumulating, so after two writes of 2 and 1 bytes the recorded count is
1, not the 3-byte total of the response body — refuting "for any sequence
of Write calls, the recorded count equals the total bytes". -/
theorem claim9_counterexample :
    (statusCaptureRun { status := 200, bytes := 0 }
      [.write (.text "ab"), .write (.text "c")]).1.bytes = 1 ∧
    totalBytes [.write (.text "ab"), .write (.text "c")] = 3 ∧
    (1 : Nat) ≠ 3 :=
  ⟨rfl, rfl, by decide⟩

/-- C9 amended: the `StatusCaptureWriter` records into its two output
cells the exact status code of the LAST `WriteHeader` and the byte count
of the LAST `Write` (equal to the body total only when the handler
writes at most once), keeps the initial cell values — in particular the
default success code 200 the middleware initializes — when the handler
never calls the corresponding method, and forwards every operation to the
wrapped sink unchanged, so the caller-observable response is identical to
using the sink directly. -/
theorem claim9_amended_capture :
    (∀ (cells : CaptureCells) (ops : List WriterOp),
      statusCaptureRun cells ops =
        ({ status := lastCapturedStatus cells.status ops,
           bytes := lastCapturedBytes cells.bytes ops }, ops)) ∧
    (∀ ops, onlyWrites ops = true →
      (statusCaptureRun { status := 200, bytes := 0 } ops).1.status = 200) :=
  ⟨statusCaptureRun_eq, fun ops h => by
    rw [statusCaptureRun_eq]
    exact lastCapturedStatus_onlyWrites 200 ops h⟩

/-- C9 witness: a header-then-body sequence is captured as its
status and last-write length and forwarded verbatim; a body-only write
sequence leaves the default 200 in the status cell. -/
theorem claim9_witness :
    statusCaptureRun { status := 200, bytes := 0 }
        [.writeHeader 404, .write (.text "nope")] =
      ({ status := 404, bytes := 4 },
       [.writeHeader 404, .write (.text "nope")]) ∧
    (statusCaptureRun { status := 200, bytes := 0 }
      [.write (.text "hi")]).1.status = 200 :=
  ⟨(claim9_amended_capture.1 { status := 200, bytes := 0 }
      [.writeHeader 404, .write (.text "nope")]).trans rfl,
   claim9_amended_capture.2 [.write (.text "hi")] rfl⟩

/-! ## C10 — the health probe -/

/-- C10: if creating the synthetic test user succeeds, the health handler
responds 200 with the healthy-true JSON body and the deletion of that
same user appears in the trace after the creation; if creation fails, it
responds 503 with the literal unhealthy body and a warning log, and no
deletion is attempted; and the handler reads no DAL result other than
`UserCreate`'s, so a failing cleanup deletion (or any other DAL change)
can neither change the reported health status nor propagate: two DALs
agreeing on `UserCreate` produce identical handler results. -/
theorem claim10_healthz_probe (dal : DAL) (hashA hashB : String) :
    (∀ e, dal.userCreate (healthzTestUser hashA hashB) = some e →
      handleHealthz dal hashA hashB =
        { writes := httpError "\x7b\"healthy\":false\x7d" 503,
          calls := [.userCreate (healthzTestUser hashA hashB)],
          warnLogs := 1 } ∧
      responseStatus (handleHealthz dal hashA hashB).writes = 503) ∧
    (dal.userCreate (healthzTestUser hashA hashB) = none →
      handleHealthz dal hashA hashB =
        { writes := [.write (.jsonHealthy true)],
          calls := [.userCreate (healthzTestUser hashA hashB),
            .userDelete (healthzTestUser hashA hashB).username] } ∧
      responseStatus (handleHealthz dal hashA hashB).writes = 200) ∧
    (∀ dal2 : DAL, dal2.userCreate = dal.userCreate →
      handleHealthz dal2 hashA hashB = handleHealthz dal hashA hashB) := by
  refine ⟨fun e h => ?_, fun h => ?_, fun dal2 h => ?_⟩
  · unfold handleHealthz
    simp [h, httpError, responseStatus]
  · unfold handleHealthz
    simp [h, responseStatus]
  · unfold handleHealthz
    rw [h]

/-- A DAL whose user creation fails with a storage error. -/
def dalCreateFails : DAL :=
  { dalAllOk with userCreate := fun _ => some .errDataAccess }

/-- A DAL whose user deletion fails with a storage error. -/
def dalDeleteFails : DAL :=
  { dalAllOk with userDelete := fun _ => some .errDataAccess }

/-- C10 witness: on a healthy DAL the probe responds 200 healthy-true and
schedules the deletion; on a DAL whose creation fails it responds 503;
and a DAL whose deletion fails produces the very same result as the
healthy one. -/
theorem claim10_witness :
    (handleHealthz dalAllOk "aaaabbbbcc" "h2" =
      { writes := [.write (.jsonHealthy true)],
        calls := [.userCreate (healthzTestUser "aaaabbbbcc" "h2"),
          .userDelete (healthzTestUser "aaaabbbbcc" "h2").username] } ∧
     responseStatus (handleHealthz dalAllOk "aaaabbbbcc" "h2").writes
       = 200) ∧
    (handleHealthz dalCreateFails "aaaabbbbcc" "h2" =
      { writes := httpError "\x7b\"healthy\":false\x7d" 503,
        calls := [.userCreate (healthzTestUser "aaaabbbbcc" "h2")],
        warnLogs := 1 } ∧
     responseStatus (handleHealthz dalCreateFails "aaaabbbbcc"
       "h2").writes = 503) ∧
    handleHealthz dalDeleteFails "aaaabbbbcc" "h2" =
      handleHealthz dalAllOk "aaaabbbbcc" "h2" :=
  ⟨(claim10_healthz_probe dalAllOk "aaaabbbbcc" "h2").2.1 rfl,
   (claim10_healthz_probe dalCreateFails "aaaabbbbcc" "h2").1
     .errDataAccess rfl,
   (claim10_healthz_probe dalAllOk "aaaabbbbcc" "h2").2.2
     dalDeleteFails rfl⟩
